import Mathlib

set_option maxHeartbeats 1000000
set_option maxRecDepth 4000

/-!
Verification development for the schema-driven CRUD core of easySql
(`src/easySql.py`): a shallow embedding of `DatabaseManager`,
`TableModel` and the row-editing pipeline of `MainWindow`, together with
theorems about coercion, statement synthesis, execution, history
recording and grid reconciliation.

Modelling conventions:
* SQLite values are `SqlValue` (NULL, INTEGER, REAL, TEXT); REAL carries a
  rational, standing in for a Python float (no floating-point rounding is
  modelled; every REAL value appearing in this development is an exact
  decimal).
* The `query_history` table is modelled as the `history` field of
  `Database`; `executed_at` timestamps are dropped (list order carries the
  append order).
* `cursor.execute` of the three synthesized single-row statements is
  modelled directly on the table contents (`execUpdate`, `execInsert`,
  `execDelete`), with the failure modes relevant to this program:
  missing table, missing column, binding-arity mismatch and NOT NULL
  violations.  UNIQUE/FK constraints and SQLite type affinity are not
  modelled.  Free-form execution (`execute_query`) is parametrised by the
  cursor's response (`CursorResult`) since it may run arbitrary SQL.
-/

namespace EasySql

/-- A stored SQLite value as held in Python: `None`, `int`, `float`
(modelled by `Rat`) or `str`. -/
inductive SqlValue where
  | null
  | int (n : Int)
  | real (q : Rat)
  | text (s : String)
deriving DecidableEq, Repr

/-- Python `str()` of a stored value: `str(None) = "None"`, integers and
strings print themselves.  For REAL values the rendering models Python's
`repr` only for integral floats (`2.0`); non-integral rationals get a
fraction fallback, which no theorem in this file relies on. -/
def pyStr : SqlValue → String
  | SqlValue.null => "None"
  | SqlValue.int n => toString n
  | SqlValue.real q => if q.den = 1 then toString q.num ++ ".0"
      else toString q.num ++ "/" ++ toString q.den
  | SqlValue.text s => s

/-- Helper: does `needle` occur as a contiguous run of `hay`? -/
def containsAux (needle : List Char) : List Char → Bool
  | [] => needle.isEmpty
  | c :: rest => needle.isPrefixOf (c :: rest) || containsAux needle rest

/-- Substring test (`needle in hay` in Python, on already-uppercased
type strings). -/
def containsSub (needle hay : String) : Bool :=
  containsAux needle.toList hay.toList

/-- Python `s.upper()` (character-wise; ASCII case mapping). -/
def pyUpper (s : String) : String :=
  String.mk (s.toList.map Char.toUpper)

/-- Python `s.strip()`: drop leading and trailing whitespace. -/
def pyStrip (s : String) : String :=
  String.mk (((s.toList.dropWhile Char.isWhitespace).reverse.dropWhile
    Char.isWhitespace).reverse)

/-- Python `", ".join(parts)`. -/
def joinSep (sep : String) : List String → String
  | [] => ""
  | [x] => x
  | x :: rest => x ++ sep ++ joinSep sep rest

/-- Digits to a natural number (helper for the numeric parsers). -/
def digitsToNat (cs : List Char) : Nat :=
  cs.foldl (fun a c => a * 10 + (c.toNat - '0'.toNat)) 0

/-- Python `int(s)` on a string: optional surrounding whitespace, an
optional sign, then one or more decimal digits.  (Underscore digit
grouping and non-decimal bases are not modelled.) -/
def parseIntPy (s : String) : Option Int :=
  let t := (pyStrip s).toList
  let (sg, ds) : Int × List Char :=
    match t with
    | '-' :: rest => (-1, rest)
    | '+' :: rest => (1, rest)
    | l => (1, l)
  if ds ≠ [] ∧ ds.all Char.isDigit then some (sg * (digitsToNat ds : Int)) else none

/-- Helper for `parseFloatPy`: apply a decimal exponent to a rational. -/
def applyExp (q : Rat) (e : Int) : Rat :=
  if 0 ≤ e then q * ((10 : Rat) ^ e.toNat) else q / ((10 : Rat) ^ (-e).toNat)

/-- Python `float(s)` on a decimal literal: optional whitespace and sign,
`digits [. digits]` or `. digits`, optional `e`/`E` exponent.  (`inf`,
`nan` and underscore grouping are not modelled.) -/
def parseFloatPy (s : String) : Option Rat :=
  let t := (pyStrip s).toList
  let (sg, t1) : Rat × List Char :=
    match t with
    | '-' :: rest => (-1, rest)
    | '+' :: rest => (1, rest)
    | l => (1, l)
  let (ip, t2) := t1.span Char.isDigit
  let cont : List Char → List Char → List Char → Option Rat := fun ip fp rest =>
    let base : Rat := sg * ((digitsToNat (ip ++ fp) : Int) : Rat) / ((10 : Rat) ^ fp.length)
    match rest with
    | [] => some base
    | 'e' :: r => parseExpPart base r
    | 'E' :: r => parseExpPart base r
    | _ => none
  match t2 with
  | '.' :: t3 =>
      let (fp, t4) := t3.span Char.isDigit
      if ip = [] ∧ fp = [] then none else cont ip fp t4
  | _ => if ip = [] then none else cont ip [] t2
where
  /-- Parse the exponent part after `e`/`E` and apply it. -/
  parseExpPart (base : Rat) (r : List Char) : Option Rat :=
    let (esg, ds) : Int × List Char :=
      match r with
      | '-' :: rest => (-1, rest)
      | '+' :: rest => (1, rest)
      | l => (1, l)
    if ds ≠ [] ∧ ds.all Char.isDigit then
      some (applyExp base (esg * (digitsToNat ds : Int)))
    else none

/-- One row of `PRAGMA table_info`: `(cid, name, type, notnull,
dflt_value, pk)`.  `notnull` and `pk` are the integers SQLite reports;
the default value comes back as its SQL text. -/
structure Col where
  cid : Nat
  name : String
  type : String
  notnull : Nat
  default : Option String
  pk : Nat
deriving DecidableEq, Repr

/-- The empty-dict fallback of `self._schema.get(column_name, {})`:
`get('notnull')` is falsy and `get('type', 'TEXT')` yields `TEXT`. -/
def emptyCol : Col := ⟨0, "", "TEXT", 0, none, 0⟩

/-- Contents of one user table: its `PRAGMA table_info` schema and its
rows, each row positionally aligned with the schema. -/
structure TableData where
  schema : List Col
  rows : List (List SqlValue)
deriving DecidableEq, Repr

/-- One record of the `query_history` table (timestamp dropped; list
order carries append order): `(query_text, success, error_message)`. -/
structure HistoryEntry where
  query_text : String
  success : Bool
  error_message : Option String
deriving DecidableEq, Repr

/-- The SQLite database file: the user/bookkeeping tables plus the
history log (the `query_history` table, modelled as a field). -/
structure Database where
  tables : List (String × TableData)
  history : List HistoryEntry
deriving DecidableEq, Repr

/-- First table with the given name (SQLite name resolution). -/
def lookupTable : List (String × TableData) → String → Option TableData
  | [], _ => none
  | (n, td) :: rest, t => if n = t then some td else lookupTable rest t

/-- Replace the contents of the named table (every binding with that
name, leaving the others untouched). -/
def replaceTable : List (String × TableData) → String → TableData → List (String × TableData)
  | [], _, _ => []
  | (n, td0) :: rest, t, td' =>
      (if n = t then (t, td') else (n, td0)) :: replaceTable rest t td'

/-- Position and schema entry of the named column. -/
def findCol : List Col → String → Option (Nat × Col)
  | [], _ => none
  | c :: rest, s =>
      if c.name = s then some (0, c)
      else (findCol rest s).map (fun p => (p.1 + 1, p.2))

/-- Index of a string in a list (`list.index` in Python, as `Option`). -/
def idxOf? : List String → String → Option Nat
  | [], _ => none
  | c :: rest, s => if c = s then some 0 else (idxOf? rest s).map (· + 1)

/-- Cell access within a row (out-of-range reads give NULL; the theorems
that depend on cells carry explicit well-formedness bounds). -/
def cell (r : List SqlValue) (i : Nat) : SqlValue :=
  r.getD i SqlValue.null

/-- SQL `=` comparison as used in the synthesized WHERE clauses: NULL
compares false against everything (including NULL). -/
def sqlEq (a b : SqlValue) : Bool :=
  match a, b with
  | SqlValue.null, _ => false
  | _, SqlValue.null => false
  | a, b => decide (a = b)

/-- All rows of a table have exactly one value per schema column. -/
def rowsWF (td : TableData) : Bool :=
  td.rows.all (fun r => r.length = td.schema.length)

/-! ## Store-level execution of the synthesized single-row statements -/

/-- Is this column an `INTEGER PRIMARY KEY` (the rowid alias, whose pk
value SQLite auto-assigns when NULL is inserted)? -/
def autoPk (c : Col) : Bool :=
  decide (c.pk = 1) && decide (pyUpper c.type = "INTEGER")

/-- Index of the `INTEGER PRIMARY KEY` column, when there is one. -/
def autoPkIdx : List Col → Option Nat
  | [] => none
  | c :: rest => if autoPk c then some 0 else (autoPkIdx rest).map (· + 1)

/-- Integer content of a cell (0 for non-integers; only used under an
`INTEGER PRIMARY KEY` column). -/
def intAt (r : List SqlValue) (i : Nat) : Int :=
  match cell r i with
  | SqlValue.int n => n
  | _ => 0

/-- The integer key SQLite assigns to a NULL inserted into the
`INTEGER PRIMARY KEY` column: one more than the largest key present. -/
def nextRowId (td : TableData) : Int :=
  match autoPkIdx td.schema with
  | some i => 1 + td.rows.foldl (fun a r => max a (intAt r i)) 0
  | none => 0

/-- The row actually stored by an INSERT: NULL under the
`INTEGER PRIMARY KEY` column becomes the auto-assigned key. -/
def resolveRow (td : TableData) (vals : List SqlValue) : List SqlValue :=
  (td.schema.zip vals).map
    (fun p => if p.2 = SqlValue.null ∧ autoPk p.1 then SqlValue.int (nextRowId td) else p.2)

/-- First column whose NOT NULL constraint an INSERT of `vals` would
violate (NULL under the auto primary key is exempt). -/
def insertViolation (td : TableData) (vals : List SqlValue) : Option Col :=
  ((td.schema.zip vals).find?
      (fun p => decide (p.2 = SqlValue.null) && !(autoPk p.1) && decide (p.1.notnull ≠ 0))).map
    (·.1)

/-- `cursor.execute` of the synthesized `INSERT INTO t (cols) VALUES (?…)`. -/
def execInsert (t : String) (td : TableData) (vals : List SqlValue) :
    Except String TableData :=
  if vals.length ≠ td.schema.length then
    Except.error "Incorrect number of bindings supplied"
  else
    match insertViolation td vals with
    | some c => Except.error ("NOT NULL constraint failed: " ++ t ++ "." ++ c.name)
    | none => Except.ok { td with rows := td.rows ++ [resolveRow td vals] }

/-- `cursor.execute` of the synthesized
`UPDATE t SET c = ? WHERE pkc = ?`. -/
def execUpdate (tables : List (String × TableData)) (t pkc : String) (pkv : SqlValue)
    (c : String) (v : SqlValue) : Except String (List (String × TableData)) :=
  match lookupTable tables t with
  | none => Except.error ("no such table: " ++ t)
  | some td =>
    match findCol td.schema c with
    | none => Except.error ("no such column: " ++ c)
    | some (ci, cs) =>
      match findCol td.schema pkc with
      | none => Except.error ("no such column: " ++ pkc)
      | some (pi, _) =>
        if v = SqlValue.null ∧ cs.notnull ≠ 0 ∧ td.rows.any (fun r => sqlEq (cell r pi) pkv) then
          Except.error ("NOT NULL constraint failed: " ++ t ++ "." ++ c)
        else
          Except.ok (replaceTable tables t
            { td with rows :=
                td.rows.map (fun r => if sqlEq (cell r pi) pkv then r.set ci v else r) })

/-- `cursor.execute` of the synthesized `DELETE FROM t WHERE pkc = ?`. -/
def execDelete (tables : List (String × TableData)) (t pkc : String) (pkv : SqlValue) :
    Except String (List (String × TableData)) :=
  match lookupTable tables t with
  | none => Except.error ("no such table: " ++ t)
  | some td =>
    match findCol td.schema pkc with
    | none => Except.error ("no such column: " ++ pkc)
    | some (pi, _) =>
        Except.ok (replaceTable tables t
          { td with rows := td.rows.filter (fun r => !(sqlEq (cell r pi) pkv)) })

/-! ## Display SQL (the literal-valued audit form) -/

/-- Display form of `update_cell`, from
`f"UPDATE {t} SET {c} = \x27{new_value}\x27 WHERE {pk} = {pk_value}"`:
the new value is always interpolated between quotes via `str()`, the pk
value bare. -/
def update_display_sql (table_name column_name : String) (new_value : SqlValue)
    (pk_column : String) (pk_value : SqlValue) : String :=
  "UPDATE " ++ table_name ++ " SET " ++ column_name ++ " = \x27" ++ pyStr new_value ++
    "\x27 WHERE " ++ pk_column ++ " = " ++ pyStr pk_value

/-- Display literal of one INSERT value, from
`f"\x27{v}\x27" if v is not None else "NULL"`. -/
def insert_value_literal (v : SqlValue) : String :=
  if v = SqlValue.null then "NULL" else "\x27" ++ pyStr v ++ "\x27"

/-- Display form of `insert_row`. -/
def insert_display_sql (table_name : String) (columns : List String)
    (vals : List SqlValue) : String :=
  "INSERT INTO " ++ table_name ++ " (" ++ joinSep ", " columns ++
    ") VALUES (" ++ joinSep ", " (vals.map insert_value_literal) ++ ")"

/-- Display form of `delete_row`. -/
def delete_display_sql (table_name pk_column : String) (pk_value : SqlValue) : String :=
  "DELETE FROM " ++ table_name ++ " WHERE " ++ pk_column ++ " = " ++ pyStr pk_value

/-! ## DatabaseManager -/

/-- The uniform outcome of `DatabaseManager.execute_query`: the three
result dictionaries the source returns. -/
inductive ExecResult where
  | rows (columns : List String) (rowData : List (List SqlValue))
  | mutation (message : String)
  | failure (error : String)
deriving DecidableEq, Repr

/-- The store's response to `cursor.execute` of a free-form statement:
either it runs (with `cursor.description` either a result-set shape or
`None`, and a `rowcount`) or it raises `sqlite3.Error` with a message. -/
inductive CursorResult where
  | ok (description : Option (List String × List (List SqlValue))) (rowcount : Int)
  | err (msg : String)
deriving DecidableEq, Repr

/-- The primitive store actions `execute_query` performs, in order:
running the user's statement, `conn.commit()`, and the INSERT into
`query_history` made by `_save_query_history`. -/
inductive DbAction where
  | execUser (sql : String)
  | commit
  | historyInsert (e : HistoryEntry)
deriving DecidableEq, Repr

/-- The history record an action appends, if any. -/
def DbAction.historyEntry : DbAction → Option HistoryEntry
  | DbAction.historyInsert e => some e
  | _ => none

/-- History records appended by a trace of actions. -/
def historyAppends (acts : List DbAction) : List HistoryEntry :=
  acts.filterMap DbAction.historyEntry

/-- `DatabaseManager._save_query_history`: inserts one row into
`query_history` and commits. -/
def save_query_history (query : String) (success : Bool) (error : Option String) :
    List DbAction :=
  [DbAction.historyInsert ⟨query, success, error⟩, DbAction.commit]

/-- The classifier `query.strip().upper().startswith("SELECT")`. -/
def isSelect (query : String) : Bool :=
  "SELECT".toList.isPrefixOf (pyUpper (pyStrip query)).toList

/-- `DatabaseManager.execute_query`, parametrised by the cursor's
response, returning the outcome together with the ordered trace of store
actions. -/
def execute_query (cur : CursorResult) (query : String) : ExecResult × List DbAction :=
  match cur with
  | CursorResult.err e =>
      (ExecResult.failure e,
       DbAction.execUser query :: save_query_history query false (some e))
  | CursorResult.ok description rowcount =>
      if isSelect query && description.isSome then
        let (columns, rows) := description.getD ([], [])
        (ExecResult.rows columns rows,
         DbAction.execUser query :: save_query_history query true none)
      else
        (ExecResult.mutation ("Query executed successfully. Rows affected: " ++
            toString rowcount),
         DbAction.execUser query :: DbAction.commit :: save_query_history query true none)

/-- `execute_query` applied to a database state: the history grows by the
appends of the trace.  (The user statement's effect on the tables is not
modelled here, being arbitrary SQL.) -/
def run_execute_query (cur : CursorResult) (query : String) (db : Database) :
    ExecResult × Database :=
  let (r, acts) := execute_query cur query
  (r, { db with history := db.history ++ historyAppends acts })

/-- `DatabaseManager.get_table_schema`: `PRAGMA table_info(t)`.  SQLite's
`PRAGMA table_info` returns no rows — it does not raise — for a table
that does not exist, so the call succeeds with an empty schema list in
that case. -/
def get_table_schema (db : Database) (table_name : String) : Except String (List Col) :=
  match lookupTable db.tables table_name with
  | some td => Except.ok td.schema
  | none => Except.ok []

/-- `DatabaseManager.get_primary_key`: first PK column plus the full PK
column list, or the \x27No primary key found\x27 error. -/
def get_primary_key (db : Database) (table_name : String) :
    Except String (String × List String) :=
  match get_table_schema db table_name with
  | Except.error e => Except.error e
  | Except.ok schema =>
    let pk_columns := (schema.filter (fun c => c.pk > 0)).map (·.name)
    match pk_columns with
    | [] => Except.error "No primary key found"
    | c :: _ => Except.ok (c, pk_columns)

/-- `DatabaseManager.get_table_data`: `SELECT * FROM t`, which raises
SQLite's native \x27no such table\x27 error when the table is missing. -/
def get_table_data (db : Database) (table_name : String) :
    Except String (List String × List (List SqlValue)) :=
  match lookupTable db.tables table_name with
  | some td => Except.ok (td.schema.map (·.name), td.rows)
  | none => Except.error ("no such table: " ++ table_name)

/-- Result dictionary of `update_cell` / `delete_row`: success carries
the display SQL and a message, failure the error plus the display SQL. -/
inductive CellResult where
  | ok (sql : String) (message : String)
  | err (error : String) (sql : String)
deriving DecidableEq, Repr

/-- `DatabaseManager.update_cell`: execute the parameterized UPDATE,
commit, and record the display form in history — with success flag on
the success path and with the error text on the failure path. -/
def update_cell (db : Database) (table_name pk_column : String) (pk_value : SqlValue)
    (column_name : String) (new_value : SqlValue) : CellResult × Database :=
  let display_sql := update_display_sql table_name column_name new_value pk_column pk_value
  match execUpdate db.tables table_name pk_column pk_value column_name new_value with
  | Except.ok tables' =>
      (CellResult.ok display_sql "Cell updated successfully",
       { tables := tables', history := db.history ++ [⟨display_sql, true, none⟩] })
  | Except.error e =>
      (CellResult.err e display_sql,
       { db with history := db.history ++ [⟨display_sql, false, some e⟩] })

/-- Result dictionary of `insert_row`. -/
inductive InsertResult where
  | ok (sql : String) (message : String) (rowid : Int)
  | err (error : String)
deriving DecidableEq, Repr

/-- `cursor.lastrowid` after the INSERT (the key stored in the appended
row's `INTEGER PRIMARY KEY` column; a best-effort stand-in otherwise). -/
def lastRowId (td' : TableData) : Int :=
  match autoPkIdx td'.schema with
  | some i => intAt ((td'.rows.getLast?).getD []) i
  | none => td'.rows.length

/-- `DatabaseManager.insert_row`: read the schema, synthesize an INSERT
over every schema column, execute and commit, then record the display
form in history.  The `except` branch of the source returns the error
without any history append. -/
def insert_row (db : Database) (table_name : String) (column_values : List SqlValue) :
    InsertResult × Database :=
  match get_table_schema db table_name with
  | Except.error e => (InsertResult.err e, db)
  | Except.ok schema =>
    let columns := schema.map (·.name)
    match lookupTable db.tables table_name with
    | none =>
        -- the synthesized INSERT raises on a missing table; no history is saved
        (InsertResult.err ("no such table: " ++ table_name), db)
    | some td =>
      match execInsert table_name td column_values with
      | Except.error e => (InsertResult.err e, db)
      | Except.ok td' =>
        let display_sql := insert_display_sql table_name columns column_values
        (InsertResult.ok display_sql "Row inserted successfully" (lastRowId td'),
         { tables := replaceTable db.tables table_name td',
           history := db.history ++ [⟨display_sql, true, none⟩] })

/-- `DatabaseManager.delete_row`: execute the parameterized DELETE,
commit, and record the display form in history on both paths. -/
def delete_row (db : Database) (table_name pk_column : String) (pk_value : SqlValue) :
    CellResult × Database :=
  let display_sql := delete_display_sql table_name pk_column pk_value
  match execDelete db.tables table_name pk_column pk_value with
  | Except.ok tables' =>
      (CellResult.ok display_sql "Row deleted successfully",
       { tables := tables', history := db.history ++ [⟨display_sql, true, none⟩] })
  | Except.error e =>
      (CellResult.err e display_sql,
       { db with history := db.history ++ [⟨display_sql, false, some e⟩] })

/-! ## Database initialization and reset -/

/-- `PRAGMA table_info(students)`. -/
def studentsSchema : List Col :=
  [⟨0, "student_id", "INTEGER", 0, none, 1⟩,
   ⟨1, "name", "TEXT", 1, none, 0⟩,
   ⟨2, "email", "TEXT", 0, none, 0⟩,
   ⟨3, "age", "INTEGER", 0, none, 0⟩,
   ⟨4, "country", "TEXT", 0, none, 0⟩]

/-- `PRAGMA table_info(courses)`. -/
def coursesSchema : List Col :=
  [⟨0, "course_id", "INTEGER", 0, none, 1⟩,
   ⟨1, "course_name", "TEXT", 1, none, 0⟩,
   ⟨2, "instructor", "TEXT", 0, none, 0⟩,
   ⟨3, "credits", "INTEGER", 0, none, 0⟩]

/-- `PRAGMA table_info(enrollments)`. -/
def enrollmentsSchema : List Col :=
  [⟨0, "enrollment_id", "INTEGER", 0, none, 1⟩,
   ⟨1, "student_id", "INTEGER", 0, none, 0⟩,
   ⟨2, "course_id", "INTEGER", 0, none, 0⟩,
   ⟨3, "enrollment_date", "TEXT", 0, none, 0⟩,
   ⟨4, "grade", "REAL", 0, none, 0⟩]

/-- `PRAGMA table_info(lesson_progress)`. -/
def lessonProgressSchema : List Col :=
  [⟨0, "lesson_id", "TEXT", 0, none, 1⟩,
   ⟨1, "completed", "INTEGER", 0, some "0", 0⟩,
   ⟨2, "completed_at", "TEXT", 0, none, 0⟩]

/-- The sample rows `_populate_sample_data` inserts into `students`. -/
def studentsData : List (List SqlValue) :=
  [[.int 1, .text "Alice Johnson", .text "alice@email.com", .int 20, .text "USA"],
   [.int 2, .text "Bob Smith", .text "bob@email.com", .int 22, .text "Canada"],
   [.int 3, .text "Carlos García", .text "carlos@email.com", .int 21, .text "Spain"],
   [.int 4, .text "Diana Lee", .text "diana@email.com", .int 19, .text "South Korea"],
   [.int 5, .text "Elena Rodríguez", .text "elena@email.com", .int 23, .text "Mexico"],
   [.int 6, .text "Frank Miller", .text "frank@email.com", .int 20, .text "UK"],
   [.int 7, .text "Gabriela Silva", .text "gabi@email.com", .int 22, .text "Brazil"],
   [.int 8, .text "Hassan Ahmed", .text "hassan@email.com", .int 21, .text "Egypt"]]

/-- The sample rows `_populate_sample_data` inserts into `courses`. -/
def coursesData : List (List SqlValue) :=
  [[.int 1, .text "Introduction to Programming", .text "Dr. Smith", .int 3],
   [.int 2, .text "Database Systems", .text "Prof. Johnson", .int 4],
   [.int 3, .text "Web Development", .text "Dr. García", .int 3],
   [.int 4, .text "Data Structures", .text "Prof. Lee", .int 4],
   [.int 5, .text "Machine Learning", .text "Dr. Chen", .int 3],
   [.int 6, .text "Computer Networks", .text "Prof. Williams", .int 3]]

/-- The sample rows `_populate_sample_data` inserts into `enrollments`. -/
def enrollmentsData : List (List SqlValue) :=
  [[.int 1, .int 1, .int 1, .text "2024-01-15", .real (19/5)],
   [.int 2, .int 1, .int 2, .text "2024-01-15", .real (7/2)],
   [.int 3, .int 2, .int 1, .text "2024-01-16", .real (16/5)],
   [.int 4, .int 2, .int 3, .text "2024-01-16", .real (39/10)],
   [.int 5, .int 3, .int 2, .text "2024-01-17", .real 4],
   [.int 6, .int 3, .int 4, .text "2024-01-17", .real (37/10)],
   [.int 7, .int 4, .int 1, .text "2024-01-18", .real (18/5)],
   [.int 8, .int 4, .int 5, .text "2024-01-18", .real (19/5)],
   [.int 9, .int 5, .int 3, .text "2024-01-19", .real (17/5)],
   [.int 10, .int 5, .int 4, .text "2024-01-19", .real (39/10)],
   [.int 11, .int 6, .int 2, .text "2024-01-20", .real (33/10)],
   [.int 12, .int 6, .int 6, .text "2024-01-20", .real (37/10)],
   [.int 13, .int 7, .int 1, .text "2024-01-21", .real (7/2)],
   [.int 14, .int 8, .int 5, .text "2024-01-22", .real (18/5)]]

/-- `CREATE TABLE IF NOT EXISTS`. -/
def createIfAbsent (tables : List (String × TableData)) (t : String)
    (schema : List Col) : List (String × TableData) :=
  match lookupTable tables t with
  | some _ => tables
  | none => tables ++ [(t, ⟨schema, []⟩)]

/-- Row count of a table (0 when it does not exist). -/
def countRows (tables : List (String × TableData)) (t : String) : Nat :=
  match lookupTable tables t with
  | some td => td.rows.length
  | none => 0

/-- `INSERT OR IGNORE` of the sample rows (only ever run on empty tables
here, so plain appends). -/
def populateTable (tables : List (String × TableData)) (t : String)
    (rs : List (List SqlValue)) : List (String × TableData) :=
  match lookupTable tables t with
  | some td => replaceTable tables t { td with rows := td.rows ++ rs }
  | none => tables

/-- `DatabaseManager.initialize_database`: create the learning tables if
absent, and populate the sample data only when `students`, `courses` and
`enrollments` are all empty.  (`query_history` is the `history` field.) -/
def initialize_database (db : Database) : Database :=
  let ts := createIfAbsent (createIfAbsent (createIfAbsent (createIfAbsent
    db.tables "students" studentsSchema) "courses" coursesSchema)
    "enrollments" enrollmentsSchema) "lesson_progress" lessonProgressSchema
  if countRows ts "students" = 0 ∧ countRows ts "courses" = 0 ∧
      countRows ts "enrollments" = 0 then
    { tables := populateTable (populateTable (populateTable ts
        "students" studentsData) "courses" coursesData) "enrollments" enrollmentsData,
      history := db.history }
  else
    { tables := ts, history := db.history }

/-- `DatabaseManager.reset_database`: drop `students`, `courses`,
`enrollments` and `lesson_progress`, then reinitialize.  The source
explicitly keeps `query_history` (comment `# Keep query history`). -/
def reset_database (db : Database) : Database :=
  initialize_database
    { db with tables := db.tables.filter (fun p =>
        !(["students", "courses", "enrollments", "lesson_progress"].contains p.1)) }

/-- `DatabaseManager.reset_lesson_progress`: `DELETE FROM
lesson_progress` (a no-op here when the table is missing). -/
def reset_lesson_progress (db : Database) : Database :=
  { db with tables :=
      match lookupTable db.tables "lesson_progress" with
      | some td => replaceTable db.tables "lesson_progress" { td with rows := [] }
      | none => db.tables }

/-- The database as first created by `DatabaseManager.__init__`. -/
def initialDb : Database := initialize_database ⟨[], []⟩

/-! ## TableModel (the grid) -/

/-- The editing-relevant state of `TableModel`: the row-major snapshot,
the header columns, and the binding metadata (`_db` presence,
`_table_name`, `_pk_column`, `_pk_index`, `_schema` keyed by name). -/
structure TableModel where
  data : List (List SqlValue)
  columns : List String
  hasDb : Bool
  table_name : Option String
  pk_column : Option String
  pk_index : Option Nat
  schema : List (String × Col)
deriving DecidableEq, Repr

/-- A freshly constructed `TableModel()`. -/
def TableModel.empty : TableModel := ⟨[], [], false, none, none, none, []⟩

/-- Lookup in the `_schema` dictionary. -/
def lookupSchema : List (String × Col) → String → Option Col
  | [], _ => none
  | (n, c) :: rest, s => if n = s then some c else lookupSchema rest s

/-- The two Qt roles `setData`/`data` distinguish. -/
inductive ItemDataRole where
  | displayRole
  | editRole
deriving DecidableEq, Repr

/-- `TableModel._validate_value`: coerce a raw edit string against the
column schema, returning `(validated_value, error)` exactly as the
source does — `(None, error)` on failure, `(value, None)` on success,
`(None, None)` for an accepted NULL. -/
def validate_value (value : Option String) (column_schema : Col) :
    Option SqlValue × Option String :=
  match value with
  | none =>
      if column_schema.notnull ≠ 0 then (none, some "Column cannot be NULL")
      else (none, none)
  | some v =>
    if v = "" then
      if column_schema.notnull ≠ 0 then (none, some "Column cannot be NULL")
      else (none, none)
    else
      let column_type := pyUpper column_schema.type
      if containsSub "INT" column_type then
        match parseIntPy v with
        | some n => (some (SqlValue.int n), none)
        | none => (none, some ("Invalid INTEGER value: \x27" ++ v ++ "\x27"))
      else if containsSub "REAL" column_type || containsSub "FLOAT" column_type ||
          containsSub "DOUBLE" column_type then
        match parseFloatPy v with
        | some q => (some (SqlValue.real q), none)
        | none => (none, some ("Invalid REAL/FLOAT value: \x27" ++ v ++ "\x27"))
      else (some (SqlValue.text v), none)

/-- Overwrite one grid cell. -/
def setCellAt (data : List (List SqlValue)) (row col : Nat) (v : SqlValue) :
    List (List SqlValue) :=
  data.set row ((data.getD row []).set col v)

/-- `TableModel.setData`: the cell-edit pipeline.  Early-outs mirror the
source: a non-edit role, a missing binding (`_db`/`_table_name`/
`_pk_column`), and an input whose `str()` equals the current cell's
`str()` all return `False` untouched.  Otherwise: validate, on error
emit and stop; on success call `update_cell` and only on store success
overwrite the in-memory cell with the validated value.  (A `None`
`_pk_index`, which would raise in the source, is modelled as a rejected
edit.) -/
def setData (m : TableModel) (db : Database) (row col : Nat) (value : String)
    (role : ItemDataRole) : Bool × TableModel × Database :=
  match role with
  | ItemDataRole.displayRole => (false, m, db)
  | ItemDataRole.editRole =>
    match m.hasDb, m.table_name, m.pk_column, m.pk_index with
    | true, some table_name, some pk_column, some pk_index =>
      let old_value := cell (m.data.getD row []) col
      let column_name := m.columns.getD col ""
      if pyStr old_value = value then (false, m, db)
      else
        let pk_value := cell (m.data.getD row []) pk_index
        let column_schema := (lookupSchema m.schema column_name).getD emptyCol
        let vr := validate_value (some value) column_schema
        match vr.2 with
        | some _ => (false, m, db)
        | none =>
          let validated_value := vr.1.getD SqlValue.null
          match update_cell db table_name pk_column pk_value column_name validated_value with
          | (CellResult.ok _ _, db') =>
              (true, { m with data := setCellAt m.data row col validated_value }, db')
          | (CellResult.err _ _, db') => (false, m, db')
    | _, _, _, _ => (false, m, db)

/-- `TableModel.update_data`: replace the snapshot and clear the editing
metadata. -/
def update_data (m : TableModel) (data : List (List SqlValue))
    (columns : List String) : TableModel :=
  { m with data := data, columns := columns, table_name := none,
           pk_column := none, pk_index := none, schema := [] }

/-- `TableModel.set_editable`: record the binding, derive the primary
key (leaving it unset if `get_primary_key` fails), locate its column
index, and load the schema dictionary. -/
def set_editable (m : TableModel) (db : Database) (table_name : String) : TableModel :=
  let m1 := { m with hasDb := true, table_name := some table_name }
  let m2 :=
    match get_primary_key db table_name with
    | Except.ok (pkc, _) =>
        { m1 with pk_column := some pkc, pk_index := idxOf? m1.columns pkc }
    | Except.error _ => m1
  match get_table_schema db table_name with
  | Except.ok schema => { m2 with schema := schema.map (fun c => (c.name, c)) }
  | Except.error _ => m2

/-- `MainWindow.refresh_table_viewer`: re-fetch the table and rebind the
viewer model; on a fetch error the source shows a dialog and leaves the
model as it was. -/
def refresh_table_viewer (db : Database) (table_name : String) (m : TableModel) :
    TableModel :=
  match get_table_data db table_name with
  | Except.ok (columns, rows) => set_editable (update_data m rows columns) db table_name
  | Except.error _ => m

/-- The per-column default of `MainWindow.add_table_row`: NULL for the
`INTEGER` single-column primary key, else the declared default, else
NULL when nullable, else 0 / 0.0 / the empty string by declared type. -/
def defaultFor (col : Col) : SqlValue :=
  if col.pk = 1 ∧ pyUpper col.type = "INTEGER" then SqlValue.null
  else
    match col.default with
    | some d => SqlValue.text d
    | none =>
        if col.notnull = 0 then SqlValue.null
        else if containsSub "INT" (pyUpper col.type) then SqlValue.int 0
        else if containsSub "REAL" (pyUpper col.type) || containsSub "FLOAT" (pyUpper col.type) then
          SqlValue.real 0
        else SqlValue.text ""

/-- `MainWindow.add_table_row`: build one default value per schema
column, insert the row, and on success display the SQL and refresh the
viewer from the store; on failure display the error and leave the viewer
untouched. -/
def add_table_row (db : Database) (table_name : String) (viewer : TableModel) :
    Database × TableModel × String :=
  match get_table_schema db table_name with
  | Except.error e => (db, viewer, "ERROR: " ++ e)
  | Except.ok schema =>
    let default_values := schema.map defaultFor
    match insert_row db table_name default_values with
    | (InsertResult.ok sql _ _, db') =>
        (db', refresh_table_viewer db' table_name viewer, sql)
    | (InsertResult.err e, db') => (db', viewer, "ERROR: " ++ e)

/-! ## Parsing display literals back (for the audit-form claims) -/

/-- The SQL string-literal delimiter. -/
def quoteChar : Char := '\x27'

/-- Body of a SQL string literal: consume up to the closing quote, with a
doubled quote standing for one quote character; the closing quote must
end the input for the whole string to be one literal. -/
def parseLitBody : List Char → List Char → Option (List Char)
  | [], _ => none
  | c :: rest, acc =>
    if c = quoteChar then
      match rest with
      | [] => some acc.reverse
      | c2 :: rest2 =>
          if c2 = quoteChar then parseLitBody rest2 (quoteChar :: acc) else none
    else parseLitBody rest (c :: acc)

/-- Parse a character list as one quoted SQL string literal. -/
def parseLit : List Char → Option (List Char)
  | c :: rest => if c = quoteChar then parseLitBody rest [] else none
  | [] => none

/-- Parse a whole string as one quoted SQL string literal, yielding the
character data it denotes (SQLite quoting rules). -/
def parse_sql_string_literal (s : String) : Option String :=
  (parseLit s.toList).map (fun l => String.mk l)

/-! ## Auxiliary predicates used by the theorems -/

/-- Every row of the named table has one value per schema column
(vacuously true for a missing table). -/
def tableWF (tables : List (String × TableData)) (t : String) : Bool :=
  match lookupTable tables t with
  | some td => rowsWF td
  | none => true

/-- The store agrees with a value at an addressed cell: in the named
table, every row whose pk column equals `pkv` holds `v` in column `c`
(vacuously true if table or columns are missing, or no row matches). -/
def storeAgrees (tables : List (String × TableData)) (t pkc : String) (pkv : SqlValue)
    (c : String) (v : SqlValue) : Bool :=
  match lookupTable tables t with
  | none => true
  | some td =>
    match findCol td.schema pkc, findCol td.schema c with
    | some (pi, _), some (ci, _) =>
        td.rows.all (fun r => !(sqlEq (cell r pi) pkv) || decide (cell r ci = v))
    | _, _ => true

/-- The viewer model bound to `students` on the freshly initialized
database (`refresh_table_viewer` after startup). -/
def studentsViewer : TableModel :=
  refresh_table_viewer initialDb "students" TableModel.empty

/-! ## Supporting lemmas -/

theorem isPrefixOf_append (l m b : List Char) (h : l.isPrefixOf m = true) :
    l.isPrefixOf (m ++ b) = true := by
  induction l generalizing m with
  | nil => simp [List.isPrefixOf]
  | cons c r ih =>
      cases m with
      | nil => simp [List.isPrefixOf] at h
      | cons c2 m2 =>
          simp only [List.cons_append, List.isPrefixOf, Bool.and_eq_true] at h ⊢
          exact ⟨h.1, ih m2 h.2⟩

theorem containsAux_nil (b : List Char) : containsAux [] b = true := by
  cases b with
  | nil => rfl
  | cons c rest => simp [containsAux, List.isPrefixOf]

theorem containsAux_append (n a b : List Char) (h : containsAux n a = true) :
    containsAux n (a ++ b) = true := by
  induction a with
  | nil =>
      have hn : n = [] := by
        cases n with
        | nil => rfl
        | cons c r => simp [containsAux] at h
      subst hn
      exact containsAux_nil b
  | cons c rest ih =>
      simp only [containsAux, Bool.or_eq_true] at h
      simp only [List.cons_append, containsAux, Bool.or_eq_true]
      rcases h with h | h
      · exact Or.inl (isPrefixOf_append _ _ b h)
      · exact Or.inr (ih h)

theorem containsSub_append_right (needle pre suf : String)
    (h : containsSub needle pre = true) : containsSub needle (pre ++ suf) = true := by
  have hT : (pre ++ suf).toList = pre.toList ++ suf.toList := rfl
  unfold containsSub at h ⊢
  rw [hT]
  exact containsAux_append _ _ _ h

theorem cell_set_self (r : List SqlValue) (i : Nat) (v : SqlValue) (h : i < r.length) :
    cell (r.set i v) i = v := by
  induction r generalizing i with
  | nil => simp at h
  | cons a rest ih =>
      cases i with
      | zero => rfl
      | succ n =>
          have hstep : cell ((a :: rest).set (n + 1) v) (n + 1) = cell (rest.set n v) n := rfl
          rw [hstep]
          exact ih n (by simpa using h)

theorem findCol_lt (schema : List Col) (s : String) (i : Nat) (c : Col)
    (h : findCol schema s = some (i, c)) : i < schema.length := by
  induction schema generalizing i c with
  | nil => simp [findCol] at h
  | cons c0 rest ih =>
      by_cases hn : c0.name = s
      · simp only [findCol, if_pos hn, Option.some.injEq, Prod.mk.injEq] at h
        simp [← h.1]
      · simp only [findCol, if_neg hn, Option.map_eq_some'] at h
        obtain ⟨⟨j, cj⟩, hj, hje⟩ := h
        have hlt := ih j cj hj
        simp only [Prod.mk.injEq] at hje
        simp [← hje.1]
        omega

theorem lookupTable_replace (tables : List (String × TableData)) (t : String)
    (td td' : TableData) (h : lookupTable tables t = some td) :
    lookupTable (replaceTable tables t td') t = some td' := by
  induction tables with
  | nil => simp [lookupTable] at h
  | cons p rest ih =>
      obtain ⟨n, td0⟩ := p
      by_cases hn : n = t
      · subst hn
        simp only [replaceTable, if_pos rfl]
        simp [lookupTable]
      · simp only [lookupTable, if_neg hn] at h
        simp only [replaceTable, if_neg hn]
        simp only [lookupTable, if_neg hn]
        exact ih h

theorem autoPk_iff (c : Col) :
    autoPk c = true ↔ (c.pk = 1 ∧ pyUpper c.type = "INTEGER") := by
  simp [autoPk]

theorem defaults_pred_false (c : Col) :
    (decide (defaultFor c = SqlValue.null) && !(autoPk c) && decide (c.notnull ≠ 0)) = false := by
  by_cases ha : autoPk c = true
  · simp [ha]
  · have hna : ¬ (c.pk = 1 ∧ pyUpper c.type = "INTEGER") :=
      fun hp => ha ((autoPk_iff c).mpr hp)
    simp only [defaultFor, if_neg hna]
    cases hd : c.default with
    | some d => simp
    | none =>
        by_cases hn : c.notnull = 0
        · simp [hn]
        · by_cases hi : containsSub "INT" (pyUpper c.type) = true
          · simp [hi, hn]
          · by_cases hr : (containsSub "REAL" (pyUpper c.type) ||
                containsSub "FLOAT" (pyUpper c.type)) = true
            · simp [hi, hr, hn]
            · simp [hi, hr, hn]

theorem zip_map_self {α β : Type} (f : α → β) (l : List α) :
    l.zip (l.map f) = l.map (fun a => (a, f a)) := by
  induction l with
  | nil => rfl
  | cons a rest ih => simp [ih]

theorem insertViolation_defaults (td : TableData) :
    insertViolation td (td.schema.map defaultFor) = none := by
  unfold insertViolation
  rw [zip_map_self]
  have hfind : (td.schema.map (fun a => (a, defaultFor a))).find?
      (fun p => decide (p.2 = SqlValue.null) && !(autoPk p.1) && decide (p.1.notnull ≠ 0)) =
      none := by
    rw [List.find?_eq_none]
    intro x hx
    obtain ⟨c, _, rfl⟩ := List.mem_map.mp hx
    intro hcontra
    dsimp only at hcontra
    rw [defaults_pred_false c] at hcontra
    exact Bool.false_ne_true hcontra
  rw [hfind]
  rfl

theorem execUpdate_storeAgrees (tables tables' : List (String × TableData)) (t pkc : String)
    (pkv : SqlValue) (c : String) (v : SqlValue)
    (hwf : tableWF tables t = true)
    (h : execUpdate tables t pkc pkv c v = Except.ok tables') :
    storeAgrees tables' t pkc pkv c v = true := by
  cases hl : lookupTable tables t with
  | none => simp only [execUpdate, hl] at h; exact Except.noConfusion h
  | some td =>
      simp only [execUpdate, hl] at h
      cases hc : findCol td.schema c with
      | none => simp only [hc] at h; exact Except.noConfusion h
      | some pc =>
          obtain ⟨ci, cs⟩ := pc
          simp only [hc] at h
          cases hp : findCol td.schema pkc with
          | none => simp only [hp] at h; exact Except.noConfusion h
          | some pp =>
              obtain ⟨pi, pcol⟩ := pp
              simp only [hp] at h
              split at h
              · exact Except.noConfusion h
              · have htab : tables' = replaceTable tables t
                    { td with rows :=
                        td.rows.map (fun r => if sqlEq (cell r pi) pkv then r.set ci v else r) } := by
                  cases h; rfl
                subst htab
                simp only [storeAgrees, lookupTable_replace tables t td _ hl, hp, hc]
                rw [List.all_eq_true]
                intro r' hr'
                obtain ⟨r, hr, rfl⟩ := List.mem_map.mp hr'
                have hrw : rowsWF td = true := by
                  unfold tableWF at hwf; rw [hl] at hwf; exact hwf
                have hlenr : r.length = td.schema.length := by
                  have := List.all_eq_true.mp hrw r hr
                  simpa using this
                by_cases hs : sqlEq (cell r pi) pkv = true
                · rw [if_pos hs]
                  have hci : ci < r.length := by
                    have := findCol_lt td.schema c ci cs hc
                    omega
                  have hcell : cell (r.set ci v) ci = v := cell_set_self r ci v hci
                  simp [hcell]
                · rw [if_neg hs]
                  simp only [Bool.not_eq_true] at hs
                  simp [hs]

theorem parseLitBody_cons_ne (c : Char) (rest acc : List Char) (hc : ¬ (c = quoteChar)) :
    parseLitBody (c :: rest) acc = parseLitBody rest (c :: acc) := by
  rw [parseLitBody.eq_def]
  simp [hc]

theorem parseLitBody_no_quote (l acc : List Char)
    (h : l.all (fun ch => ch ≠ quoteChar) = true) :
    parseLitBody (l ++ [quoteChar]) acc = some (acc.reverse ++ l) := by
  induction l generalizing acc with
  | nil => simp [parseLitBody]
  | cons c rest ih =>
      rw [List.all_cons, Bool.and_eq_true] at h
      obtain ⟨h1, h2⟩ := h
      have hc : ¬ (c = quoteChar) := by simpa using h1
      rw [List.cons_append, parseLitBody_cons_ne c _ _ hc, ih (c :: acc) h2]
      simp

theorem parse_quoted (s : String) (h : s.toList.all (fun ch => ch ≠ quoteChar) = true) :
    parse_sql_string_literal ("\x27" ++ s ++ "\x27") = some s := by
  have hT : ("\x27" ++ s ++ "\x27").toList = quoteChar :: (s.toList ++ [quoteChar]) := rfl
  unfold parse_sql_string_literal
  rw [hT]
  have hP : parseLit (quoteChar :: (s.toList ++ [quoteChar])) =
      parseLitBody (s.toList ++ [quoteChar]) [] := by simp [parseLit]
  rw [hP, parseLitBody_no_quote s.toList [] h]
  simp

/-! ## Claim theorems -/

/-- C7: when the store raises a native error during execution,
`execute_query` returns a Failure outcome carrying the store's error
message verbatim (never reworded or swallowed), records the attempt in
history with `succeeded = false` together with that text, and performs
no commit of the failed statement — the only commit in the trace is the
one `_save_query_history` issues after its own history insert. -/
theorem c7_execute_query_failure (query msg : String) (db : Database) :
    execute_query (CursorResult.err msg) query =
      (ExecResult.failure msg,
       [DbAction.execUser query,
        DbAction.historyInsert ⟨query, false, some msg⟩,
        DbAction.commit]) ∧
    run_execute_query (CursorResult.err msg) query db =
      (ExecResult.failure msg,
       { db with history := db.history ++ [⟨query, false, some msg⟩] }) :=
  ⟨rfl, rfl⟩

/-- C4: `execute_query` classifies a statement as row-returning exactly
when its text, stripped and uppercased, starts with `SELECT`; a
row-returning statement with result-set metadata has its column names
and rows captured and returned as a Rows outcome with no commit before
the history append; a row-returning statement without metadata falls
through to the mutating path; a mutating statement is committed
immediately and its Mutation message carries the affected-row count. -/
theorem c4_execute_query_classification (query : String) (columns : List String)
    (rowData : List (List SqlValue)) (rowcount : Int) :
    (isSelect query = true →
      execute_query (CursorResult.ok (some (columns, rowData)) rowcount) query =
        (ExecResult.rows columns rowData,
         [DbAction.execUser query, DbAction.historyInsert ⟨query, true, none⟩,
          DbAction.commit])) ∧
    (isSelect query = false →
      execute_query (CursorResult.ok (some (columns, rowData)) rowcount) query =
        (ExecResult.mutation
            ("Query executed successfully. Rows affected: " ++ toString rowcount),
         [DbAction.execUser query, DbAction.commit,
          DbAction.historyInsert ⟨query, true, none⟩, DbAction.commit])) ∧
    execute_query (CursorResult.ok none rowcount) query =
      (ExecResult.mutation
          ("Query executed successfully. Rows affected: " ++ toString rowcount),
       [DbAction.execUser query, DbAction.commit,
        DbAction.historyInsert ⟨query, true, none⟩, DbAction.commit]) := by
  refine ⟨fun h => ?_, fun h => ?_, ?_⟩
  · simp [execute_query, save_query_history, h]
  · simp [execute_query, save_query_history, h]
  · simp [execute_query, save_query_history]

/-- Witness for C4 at a concrete SELECT and a concrete DELETE. -/
theorem c4_execute_query_classification_witness :
    isSelect "SELECT * FROM students" = true ∧
    isSelect "DELETE FROM enrollments;" = false ∧
    execute_query (CursorResult.ok (some (["name"], [[SqlValue.text "Alice Johnson"]])) (-1))
        "SELECT * FROM students" =
      (ExecResult.rows ["name"] [[SqlValue.text "Alice Johnson"]],
       [DbAction.execUser "SELECT * FROM students",
        DbAction.historyInsert ⟨"SELECT * FROM students", true, none⟩, DbAction.commit]) ∧
    execute_query (CursorResult.ok none 14) "DELETE FROM enrollments;" =
      (ExecResult.mutation ("Query executed successfully. Rows affected: " ++ toString (14 : Int)),
       [DbAction.execUser "DELETE FROM enrollments;", DbAction.commit,
        DbAction.historyInsert ⟨"DELETE FROM enrollments;", true, none⟩, DbAction.commit]) := by
  refine ⟨rfl, rfl, ?_, ?_⟩
  · exact (c4_execute_query_classification "SELECT * FROM students" ["name"]
      [[SqlValue.text "Alice Johnson"]] (-1)).1 rfl
  · exact (c4_execute_query_classification "DELETE FROM enrollments;" [] [] 14).2.2

/-- C6 counterexample: the display SQL of a synthesized UPDATE renders a
null value as the quoted text \x27None\x27 rather than the NULL keyword,
and a quote character inside a value is copied unescaped into the
display literal, which therefore no longer parses back as one literal
denoting the executed parameter (the logged statement is not
re-runnable). -/
theorem c6_display_literal_counterexample :
    update_display_sql "students" "name" SqlValue.null "student_id" (SqlValue.int 1) =
      "UPDATE students SET name = \x27None\x27 WHERE student_id = 1" ∧
    update_display_sql "students" "name" SqlValue.null "student_id" (SqlValue.int 1) ≠
      "UPDATE students SET name = NULL WHERE student_id = 1" ∧
    insert_value_literal (SqlValue.text "O\x27Brien") = "\x27O\x27Brien\x27" ∧
    parse_sql_string_literal (insert_value_literal (SqlValue.text "O\x27Brien")) = none ∧
    parse_sql_string_literal (insert_value_literal (SqlValue.text "O\x27Brien")) ≠
      some "O\x27Brien" := by
  refine ⟨rfl, by decide, rfl, rfl, by decide⟩

/-- C6 amended: the INSERT display renders non-null values as quoted
literals and null as the NULL keyword, while the UPDATE display quotes
every value — null included, which therefore prints exactly like the
text value "None" instead of the NULL keyword; quote characters are
interpolated raw (unescaped) into the display, so the display literal
parses back to exactly the executed parameter precisely when the
value's rendering contains no quote character. -/
theorem c6_display_literal_amended (v : SqlValue) (t c pkc : String) (pkv : SqlValue)
    (hv : v ≠ SqlValue.null)
    (hq : (pyStr v).toList.all (fun ch => ch ≠ quoteChar) = true) :
    insert_value_literal v = "\x27" ++ pyStr v ++ "\x27" ∧
    insert_value_literal SqlValue.null = "NULL" ∧
    update_display_sql t c SqlValue.null pkc pkv =
      update_display_sql t c (SqlValue.text "None") pkc pkv ∧
    parse_sql_string_literal (insert_value_literal v) = some (pyStr v) := by
  have h1 : insert_value_literal v = "\x27" ++ pyStr v ++ "\x27" := by
    unfold insert_value_literal
    rw [if_neg hv]
  refine ⟨h1, rfl, rfl, ?_⟩
  rw [h1]
  exact parse_quoted (pyStr v) hq

/-- Witness for C6's amended statement at a concrete quote-free value. -/
theorem c6_display_literal_amended_witness :
    (SqlValue.text "Alice" ≠ SqlValue.null) ∧
    ((pyStr (SqlValue.text "Alice")).toList.all (fun ch => ch ≠ quoteChar) = true) ∧
    (insert_value_literal (SqlValue.text "Alice") =
        "\x27" ++ pyStr (SqlValue.text "Alice") ++ "\x27" ∧
     insert_value_literal SqlValue.null = "NULL" ∧
     update_display_sql "t" "c" SqlValue.null "pk" (SqlValue.int 1) =
       update_display_sql "t" "c" (SqlValue.text "None") "pk" (SqlValue.int 1) ∧
     parse_sql_string_literal (insert_value_literal (SqlValue.text "Alice")) =
       some (pyStr (SqlValue.text "Alice"))) :=
  ⟨by decide, by decide,
   c6_display_literal_amended (SqlValue.text "Alice") "t" "c" "pk" (SqlValue.int 1)
     (by decide) (by decide)⟩

/-- C8 counterexample: the store reset does not clear the history log —
`reset_database` drops the learning tables but keeps `query_history`
(source comment `Keep query history`), so a nonempty history survives
the reset unchanged. -/
theorem c8_reset_keeps_history_counterexample :
    (reset_database
        { initialDb with history := [⟨"DROP TABLE students;", true, none⟩] }).history =
      [⟨"DROP TABLE students;", true, none⟩] ∧
    (reset_database
        { initialDb with history := [⟨"DROP TABLE students;", true, none⟩] }).history ≠
      [] := by
  have h : (reset_database
      { initialDb with history := [⟨"DROP TABLE students;", true, none⟩] }).history =
      [⟨"DROP TABLE students;", true, none⟩] := rfl
  exact ⟨h, by rw [h]; simp⟩

/-- C8 amended: the history log is append-only under every modeled
operation — each execution path only appends entries (the old history is
a prefix of the new), no operation edits or removes entries, and in
particular the store reset preserves the history log exactly: there is
no deletion path at all, rather than reset being the one deletion
path. -/
theorem c8_history_append_only :
    (∀ cur query db, db.history <+: (run_execute_query cur query db).2.history) ∧
    (∀ db t pkc pkv c v, db.history <+: ((update_cell db t pkc pkv c v).2).history) ∧
    (∀ db t vs, db.history <+: ((insert_row db t vs).2).history) ∧
    (∀ db t pkc pkv, db.history <+: ((delete_row db t pkc pkv).2).history) ∧
    (∀ db, (reset_database db).history = db.history) ∧
    (∀ db, (reset_lesson_progress db).history = db.history) := by
  refine ⟨?_, ?_, ?_, ?_, ?_, ?_⟩
  · intro cur query db
    exact ⟨historyAppends (execute_query cur query).2, rfl⟩
  · intro db t pkc pkv c v
    unfold update_cell
    cases hE : execUpdate db.tables t pkc pkv c v with
    | ok tbs => exact ⟨_, rfl⟩
    | error e => exact ⟨_, rfl⟩
  · intro db t vs
    cases hL : lookupTable db.tables t with
    | none =>
        simp only [insert_row, get_table_schema, hL]
        exact ⟨[], List.append_nil _⟩
    | some td =>
        simp only [insert_row, get_table_schema, hL]
        cases hI : execInsert t td vs with
        | ok td' =>
            simp only [hI]
            exact ⟨_, rfl⟩
        | error e =>
            simp only [hI]
            exact ⟨[], List.append_nil _⟩
  · intro db t pkc pkv
    unfold delete_row
    cases hE : execDelete db.tables t pkc pkv with
    | ok tbs => exact ⟨_, rfl⟩
    | error e => exact ⟨_, rfl⟩
  · intro db
    simp only [reset_database, initialize_database]
    split <;> rfl
  · intro db
    rfl

/-- C5 counterexample: inspecting the schema of a table that does not
exist does not fail with a not-found error — `PRAGMA table_info` raises
nothing, so `get_table_schema` succeeds with an empty schema list, and
the primary-key derivation then fails with \x27No primary key found\x27
(a no-primary-key error), not with the missing-table error. -/
theorem c5_schema_missing_table_counterexample :
    get_table_schema (Database.mk [] []) "students" = Except.ok [] ∧
    get_primary_key (Database.mk [] []) "students" =
      Except.error "No primary key found" ∧
    ("No primary key found" : String) ≠ "no such table: students" := by
  refine ⟨rfl, rfl, by decide⟩

/-- C5 amended: for a table that does not exist, schema inspection
succeeds with an empty column list; deriving the primary key then fails
with \x27No primary key found\x27; the data fetch used to bind the grid
fails with SQLite's native \x27no such table\x27 message; and the viewer
refresh leaves the model untouched — so after a successful DROP TABLE,
binding surfaces the native missing-table / no-primary-key errors, not a
dedicated schema-not-found error. -/
theorem c5_missing_table_bind (db : Database) (t : String) (m : TableModel)
    (h : lookupTable db.tables t = none) :
    get_table_schema db t = Except.ok [] ∧
    get_primary_key db t = Except.error "No primary key found" ∧
    get_table_data db t = Except.error ("no such table: " ++ t) ∧
    refresh_table_viewer db t m = m := by
  refine ⟨?_, ?_, ?_, ?_⟩
  · simp only [get_table_schema, h]
  · simp only [get_primary_key, get_table_schema, h]
    rfl
  · simp only [get_table_data, h]
  · simp only [refresh_table_viewer, get_table_data, h]

/-- Witness for C5's amended statement: the database right after
`DROP TABLE students` (the students binding removed). -/
theorem c5_missing_table_bind_witness :
    lookupTable
      ((Database.mk (initialDb.tables.filter (fun p => !(p.1 == "students")))
          initialDb.history).tables) "students" = none ∧
    (get_table_schema (Database.mk (initialDb.tables.filter (fun p => !(p.1 == "students")))
        initialDb.history) "students" = Except.ok [] ∧
     get_primary_key (Database.mk (initialDb.tables.filter (fun p => !(p.1 == "students")))
        initialDb.history) "students" = Except.error "No primary key found" ∧
     get_table_data (Database.mk (initialDb.tables.filter (fun p => !(p.1 == "students")))
        initialDb.history) "students" = Except.error ("no such table: " ++ "students") ∧
     refresh_table_viewer (Database.mk (initialDb.tables.filter (fun p => !(p.1 == "students")))
        initialDb.history) "students" TableModel.empty = TableModel.empty) :=
  ⟨rfl, c5_missing_table_bind _ "students" TableModel.empty rfl⟩

/-- C2 counterexample: a failing synthesized INSERT appends nothing to
the history log — inserting a row with a NULL `name` into `students`
fails with the NOT NULL error while the history stays exactly as it was,
so this execution attempt is unrecorded. -/
theorem c2_insert_failure_unrecorded :
    (insert_row initialDb "students"
        [SqlValue.int 9, SqlValue.null, SqlValue.null, SqlValue.null, SqlValue.null]).1 =
      InsertResult.err "NOT NULL constraint failed: students.name" ∧
    ((insert_row initialDb "students"
        [SqlValue.int 9, SqlValue.null, SqlValue.null, SqlValue.null, SqlValue.null]).2).history =
      initialDb.history ∧
    ¬ (((insert_row initialDb "students"
        [SqlValue.int 9, SqlValue.null, SqlValue.null, SqlValue.null,
         SqlValue.null]).2).history.length = initialDb.history.length + 1) := by
  refine ⟨rfl, rfl, by decide⟩

/-- C2 amended: every free-form execution appends exactly one history
entry, and every synthesized UPDATE and DELETE appends exactly one entry
whether it succeeds or fails; a synthesized INSERT appends exactly one
entry on success but none on failure — a failing INSERT is the one kind
of execution attempt left unrecorded. -/
theorem c2_history_per_attempt :
    (∀ cur query, (historyAppends (execute_query cur query).2).length = 1) ∧
    (∀ db t pkc pkv c v, ∃ e, ((update_cell db t pkc pkv c v).2).history = db.history ++ [e]) ∧
    (∀ db t pkc pkv, ∃ e, ((delete_row db t pkc pkv).2).history = db.history ++ [e]) ∧
    (∀ db t vs sql msg rid, (insert_row db t vs).1 = InsertResult.ok sql msg rid →
      ∃ e, ((insert_row db t vs).2).history = db.history ++ [e]) ∧
    (∀ db t vs e, (insert_row db t vs).1 = InsertResult.err e →
      ((insert_row db t vs).2).history = db.history) := by
  refine ⟨?_, ?_, ?_, ?_, ?_⟩
  · intro cur query
    cases cur with
    | err e => rfl
    | ok desc rc =>
        by_cases hb : (isSelect query && desc.isSome) = true
        · simp only [execute_query]
          rw [if_pos hb]
          rfl
        · simp only [execute_query]
          rw [if_neg hb]
          rfl
  · intro db t pkc pkv c v
    unfold update_cell
    cases hE : execUpdate db.tables t pkc pkv c v with
    | ok tbs => exact ⟨_, rfl⟩
    | error e => exact ⟨_, rfl⟩
  · intro db t pkc pkv
    unfold delete_row
    cases hE : execDelete db.tables t pkc pkv with
    | ok tbs => exact ⟨_, rfl⟩
    | error e => exact ⟨_, rfl⟩
  · intro db t vs sql msg rid h
    cases hL : lookupTable db.tables t with
    | none =>
        simp only [insert_row, get_table_schema, hL] at h
        exact InsertResult.noConfusion h
    | some td =>
        simp only [insert_row, get_table_schema, hL] at h ⊢
        cases hI : execInsert t td vs with
        | ok td' =>
            simp only [hI]
            exact ⟨_, rfl⟩
        | error e =>
            simp only [hI] at h
            exact InsertResult.noConfusion h
  · intro db t vs e h
    cases hL : lookupTable db.tables t with
    | none => simp only [insert_row, get_table_schema, hL]
    | some td =>
        simp only [insert_row, get_table_schema, hL] at h ⊢
        cases hI : execInsert t td vs with
        | ok td' =>
            simp only [hI] at h
            exact InsertResult.noConfusion h
        | error e2 => simp only [hI]

/-- Witness for C2's amended statement: a successful default-row INSERT
into `courses` appends one entry; an INSERT into a missing table fails
and appends none. -/
theorem c2_history_per_attempt_witness :
    ((insert_row initialDb "nope" []).1 = InsertResult.err "no such table: nope") ∧
    (∃ e, ((insert_row initialDb "courses" (coursesSchema.map defaultFor)).2).history =
      initialDb.history ++ [e]) ∧
    ((insert_row initialDb "nope" []).2).history = initialDb.history := by
  refine ⟨rfl, ?_, ?_⟩
  · exact c2_history_per_attempt.2.2.2.1 initialDb "courses" (coursesSchema.map defaultFor)
      "INSERT INTO courses (course_id, course_name, instructor, credits) VALUES (NULL, \x27\x27, NULL, NULL)"
      "Row inserted successfully" 7 rfl
  · exact c2_history_per_attempt.2.2.2.2 initialDb "nope" [] "no such table: nope" rfl

/-- C3: `_validate_value` applies its rules in order — empty or null
input is rejected with the null error exactly when the column is marked
not-null and accepted as null otherwise; a declared type containing an
integer marker parses the input as an integer or fails with a message
naming INTEGER; otherwise a floating-point marker parses a double or
fails with a message naming REAL; any other type accepts the raw string
unchanged.  The embedding is a pure function of the input and the column
schema alone — it takes no store state and can touch none. -/
theorem c3_validate_value_rules (v : String) (cs : Col) :
    (cs.notnull ≠ 0 →
      validate_value none cs = (none, some "Column cannot be NULL") ∧
      validate_value (some "") cs = (none, some "Column cannot be NULL")) ∧
    (cs.notnull = 0 →
      validate_value none cs = (none, none) ∧
      validate_value (some "") cs = (none, none)) ∧
    (v ≠ "" → containsSub "INT" (pyUpper cs.type) = true →
      (∀ n, parseIntPy v = some n →
        validate_value (some v) cs = (some (SqlValue.int n), none)) ∧
      (parseIntPy v = none →
        validate_value (some v) cs =
          (none, some ("Invalid INTEGER value: \x27" ++ v ++ "\x27")) ∧
        containsSub "INTEGER" ("Invalid INTEGER value: \x27" ++ v ++ "\x27") = true)) ∧
    (v ≠ "" → containsSub "INT" (pyUpper cs.type) = false →
      (containsSub "REAL" (pyUpper cs.type) || containsSub "FLOAT" (pyUpper cs.type) ||
        containsSub "DOUBLE" (pyUpper cs.type)) = true →
      (∀ q, parseFloatPy v = some q →
        validate_value (some v) cs = (some (SqlValue.real q), none)) ∧
      (parseFloatPy v = none →
        validate_value (some v) cs =
          (none, some ("Invalid REAL/FLOAT value: \x27" ++ v ++ "\x27")) ∧
        containsSub "REAL" ("Invalid REAL/FLOAT value: \x27" ++ v ++ "\x27") = true)) ∧
    (v ≠ "" → containsSub "INT" (pyUpper cs.type) = false →
      (containsSub "REAL" (pyUpper cs.type) || containsSub "FLOAT" (pyUpper cs.type) ||
        containsSub "DOUBLE" (pyUpper cs.type)) = false →
      validate_value (some v) cs = (some (SqlValue.text v), none)) := by
  refine ⟨fun hn => ⟨?_, ?_⟩, fun hn => ⟨?_, ?_⟩,
    fun hv hint => ⟨fun n hp => ?_, fun hp => ⟨?_, ?_⟩⟩,
    fun hv hint hreal => ⟨fun q hp => ?_, fun hp => ⟨?_, ?_⟩⟩,
    fun hv hint hreal => ?_⟩
  · simp only [validate_value, if_pos hn]
  · simp [validate_value, hn]
  · simp [validate_value, hn]
  · simp [validate_value, hn]
  · simp only [validate_value, if_neg hv, if_pos hint, hp]
  · simp only [validate_value, if_neg hv, if_pos hint, hp]
  · exact containsSub_append_right _ _ _
      (containsSub_append_right "INTEGER" "Invalid INTEGER value: \x27" v (by decide))
  · simp only [validate_value, if_neg hv, hint, Bool.false_eq_true, if_false,
      if_pos hreal, hp]
  · simp only [validate_value, if_neg hv, hint, Bool.false_eq_true, if_false,
      if_pos hreal, hp]
  · exact containsSub_append_right _ _ _
      (containsSub_append_right "REAL" "Invalid REAL/FLOAT value: \x27" v (by decide))
  · simp only [validate_value, if_neg hv, hint, hreal, Bool.false_eq_true, if_false]

/-- Witness for C3: the NULL rule on the not-null `name` column and the
INTEGER rule on `age` with the unparsable input `twenty` (Scenario B). -/
theorem c3_validate_value_rules_witness :
    ((⟨1, "name", "TEXT", 1, none, 0⟩ : Col).notnull ≠ 0) ∧
    (validate_value none ⟨1, "name", "TEXT", 1, none, 0⟩ =
        (none, some "Column cannot be NULL") ∧
      validate_value (some "") ⟨1, "name", "TEXT", 1, none, 0⟩ =
        (none, some "Column cannot be NULL")) ∧
    ("twenty" ≠ "") ∧
    (containsSub "INT" (pyUpper (⟨3, "age", "INTEGER", 0, none, 0⟩ : Col).type) = true) ∧
    (parseIntPy "twenty" = none) ∧
    (validate_value (some "twenty") ⟨3, "age", "INTEGER", 0, none, 0⟩ =
        (none, some ("Invalid INTEGER value: \x27" ++ "twenty" ++ "\x27")) ∧
      containsSub "INTEGER" ("Invalid INTEGER value: \x27" ++ "twenty" ++ "\x27") = true) := by
  refine ⟨by decide,
    (c3_validate_value_rules "twenty" ⟨1, "name", "TEXT", 1, none, 0⟩).1 (by decide),
    by decide, by decide, by decide, ?_⟩
  exact ((c3_validate_value_rules "twenty" ⟨3, "age", "INTEGER", 0, none, 0⟩).2.2.1
    (by decide) (by decide)).2 (by decide)

/-- C10: an edit whose raw input equals the current cell's `str()`
rendering is rejected before validation — `setData` returns `False` with
the model and the database both untouched (no coercion error, no store
call, no history append), even when the input would otherwise be a valid
edit. -/
theorem c10_setData_unchanged_guard (m : TableModel) (db : Database) (row col : Nat)
    (value : String) (tn pkc : String) (pki : Nat)
    (hdb : m.hasDb = true) (htn : m.table_name = some tn) (hpc : m.pk_column = some pkc)
    (hpi : m.pk_index = some pki)
    (hval : pyStr (cell (m.data.getD row []) col) = value) :
    setData m db row col value ItemDataRole.editRole = (false, m, db) := by
  simp only [setData, hdb, htn, hpc, hpi]
  rw [if_pos hval]

/-- Witness for C10: re-entering Alice's current age `20` is rejected
with the grid and the store untouched. -/
theorem c10_setData_unchanged_guard_witness :
    studentsViewer.hasDb = true ∧ studentsViewer.table_name = some "students" ∧
    studentsViewer.pk_column = some "student_id" ∧ studentsViewer.pk_index = some 0 ∧
    pyStr (cell (studentsViewer.data.getD 0 []) 3) = "20" ∧
    setData studentsViewer initialDb 0 3 "20" ItemDataRole.editRole =
      (false, studentsViewer, initialDb) := by
  refine ⟨rfl, rfl, rfl, rfl, rfl, ?_⟩
  exact c10_setData_unchanged_guard studentsViewer initialDb 0 3 "20" "students"
    "student_id" 0 rfl rfl rfl rfl rfl

/-- C1: the store-first invariant of `setData` on a bound grid whose
input differs from the current cell.  If coercion fails, the edit
returns `False` with model and database untouched (the store is never
called).  Any failed edit leaves the in-memory model and the stored
tables unchanged.  Only a successful edit overwrites the in-memory cell,
and then it holds exactly the coerced value, which the store then also
holds at every row addressed by the synthesized WHERE clause — the
grid's view is never ahead of the store. -/
theorem c1_setData_store_first (m : TableModel) (db : Database) (row col : Nat)
    (value : String) (tn pkc : String) (pki : Nat)
    (hdb : m.hasDb = true) (htn : m.table_name = some tn) (hpc : m.pk_column = some pkc)
    (hpi : m.pk_index = some pki)
    (hch : pyStr (cell (m.data.getD row []) col) ≠ value)
    (hwf : tableWF db.tables tn = true) :
    ((validate_value (some value)
        ((lookupSchema m.schema (m.columns.getD col "")).getD emptyCol)).2.isSome = true →
      setData m db row col value ItemDataRole.editRole = (false, m, db)) ∧
    ((setData m db row col value ItemDataRole.editRole).1 = false →
      (setData m db row col value ItemDataRole.editRole).2.1 = m ∧
      ((setData m db row col value ItemDataRole.editRole).2.2).tables = db.tables) ∧
    ((setData m db row col value ItemDataRole.editRole).1 = true →
      (setData m db row col value ItemDataRole.editRole).2.1 =
        { m with data := (setCellAt m.data row col
            ((validate_value (some value)
              ((lookupSchema m.schema (m.columns.getD col "")).getD emptyCol)).1.getD
              SqlValue.null)) } ∧
      storeAgrees ((setData m db row col value ItemDataRole.editRole).2.2).tables tn pkc
        (cell (m.data.getD row []) pki) (m.columns.getD col "")
        ((validate_value (some value)
          ((lookupSchema m.schema (m.columns.getD col "")).getD emptyCol)).1.getD
          SqlValue.null) = true) := by
  simp only [setData, hdb, htn, hpc, hpi]
  rw [if_neg hch]
  cases hv : (validate_value (some value)
      ((lookupSchema m.schema (m.columns.getD col "")).getD emptyCol)).2 with
  | some e => simp [hv]
  | none =>
      unfold update_cell
      cases hE : execUpdate db.tables tn pkc (cell (m.data.getD row []) pki)
          (m.columns.getD col "")
          ((validate_value (some value)
            ((lookupSchema m.schema (m.columns.getD col "")).getD emptyCol)).1.getD
            SqlValue.null) with
      | ok tbs =>
          simp [hv, hE]
          simpa using execUpdate_storeAgrees db.tables tbs tn pkc _ _ _ hwf hE
      | error e =>
          simp [hv, hE]

/-- Witness for C1 (Scenario A): editing Alice's age to `21` succeeds,
the grid cell holds the coerced integer, and the store agrees. -/
theorem c1_setData_store_first_witness :
    (pyStr (cell (studentsViewer.data.getD 0 []) 3) ≠ "21") ∧
    tableWF initialDb.tables "students" = true ∧
    (setData studentsViewer initialDb 0 3 "21" ItemDataRole.editRole).1 = true ∧
    ((setData studentsViewer initialDb 0 3 "21" ItemDataRole.editRole).2.1 =
      { studentsViewer with data := (setCellAt studentsViewer.data 0 3
          ((validate_value (some "21")
            ((lookupSchema studentsViewer.schema
              (studentsViewer.columns.getD 3 "")).getD emptyCol)).1.getD SqlValue.null)) } ∧
     storeAgrees
        ((setData studentsViewer initialDb 0 3 "21" ItemDataRole.editRole).2.2).tables
        "students" "student_id" (cell (studentsViewer.data.getD 0 []) 0)
        (studentsViewer.columns.getD 3 "")
        ((validate_value (some "21")
          ((lookupSchema studentsViewer.schema
            (studentsViewer.columns.getD 3 "")).getD emptyCol)).1.getD SqlValue.null) =
        true) := by
  refine ⟨by decide, by decide, rfl, ?_⟩
  exact (c1_setData_store_first studentsViewer initialDb 0 3 "21" "students" "student_id"
    0 rfl rfl rfl rfl (by decide) (by decide)).2.2 rfl

theorem set_editable_preserves (m : TableModel) (db : Database) (t : String) :
    (set_editable m db t).data = m.data ∧ (set_editable m db t).columns = m.columns := by
  unfold set_editable
  cases hA : get_primary_key db t with
  | ok p =>
      obtain ⟨pkc, pkcs⟩ := p
      cases hB : get_table_schema db t with
      | ok sch => exact ⟨rfl, rfl⟩
      | error e => exact ⟨rfl, rfl⟩
  | error e =>
      cases hB : get_table_schema db t with
      | ok sch => exact ⟨rfl, rfl⟩
      | error e2 => exact ⟨rfl, rfl⟩

theorem refresh_viewer_rows (db : Database) (t : String) (m : TableModel) (td : TableData)
    (h : lookupTable db.tables t = some td) :
    (refresh_table_viewer db t m).data = td.rows ∧
    (refresh_table_viewer db t m).columns = td.schema.map (fun c => c.name) := by
  simp only [refresh_table_viewer, get_table_data, h]
  refine ⟨?_, ?_⟩
  · rw [(set_editable_preserves
      (update_data m td.rows (td.schema.map (fun c => c.name))) db t).1]
    rfl
  · rw [(set_editable_preserves
      (update_data m td.rows (td.schema.map (fun c => c.name))) db t).2]
    rfl

/-- C9: `add_table_row` derives exactly one default per column of the
bound table by the stated rules, synthesizes an INSERT whose display
lists every schema column in order with those values, always succeeds on
an existing table (the derived defaults can violate no NOT NULL
constraint), and on success refreshes the viewer from the store — the
viewer's rows equal the store's rows including the appended one, whose
auto primary key holds the store-assigned integer, rather than a local
append of the raw defaults. -/
theorem c9_add_table_row (db : Database) (t : String) (viewer : TableModel)
    (td : TableData) (h : lookupTable db.tables t = some td) :
    (∀ col : Col,
      (col.pk = 1 ∧ pyUpper col.type = "INTEGER" → defaultFor col = SqlValue.null) ∧
      (¬(col.pk = 1 ∧ pyUpper col.type = "INTEGER") →
        (∀ d, col.default = some d → defaultFor col = SqlValue.text d) ∧
        (col.default = none →
          (col.notnull = 0 → defaultFor col = SqlValue.null) ∧
          (col.notnull ≠ 0 → containsSub "INT" (pyUpper col.type) = true →
            defaultFor col = SqlValue.int 0) ∧
          (col.notnull ≠ 0 → containsSub "INT" (pyUpper col.type) = false →
            (containsSub "REAL" (pyUpper col.type) ||
              containsSub "FLOAT" (pyUpper col.type)) = true →
            defaultFor col = SqlValue.real 0) ∧
          (col.notnull ≠ 0 → containsSub "INT" (pyUpper col.type) = false →
            (containsSub "REAL" (pyUpper col.type) ||
              containsSub "FLOAT" (pyUpper col.type)) = false →
            defaultFor col = SqlValue.text "")))) ∧
    (add_table_row db t viewer).2.2 =
      insert_display_sql t (td.schema.map (fun c => c.name)) (td.schema.map defaultFor) ∧
    lookupTable ((add_table_row db t viewer).1.tables) t =
      some { td with rows := td.rows ++ [resolveRow td (td.schema.map defaultFor)] } ∧
    ((add_table_row db t viewer).2.1).data =
      td.rows ++ [resolveRow td (td.schema.map defaultFor)] ∧
    ((add_table_row db t viewer).2.1).columns = td.schema.map (fun c => c.name) ∧
    (∀ c0 restS, td.schema = c0 :: restS → autoPk c0 = true →
      cell (resolveRow td (td.schema.map defaultFor)) 0 = SqlValue.int (nextRowId td)) := by
  have hIns : execInsert t td (td.schema.map defaultFor) =
      Except.ok { td with rows := td.rows ++ [resolveRow td (td.schema.map defaultFor)] } := by
    unfold execInsert
    rw [if_neg (by simp), insertViolation_defaults]
  have hAdd : add_table_row db t viewer =
      ({ tables := replaceTable db.tables t
            { td with rows := td.rows ++ [resolveRow td (td.schema.map defaultFor)] },
         history := db.history ++
          [⟨insert_display_sql t (td.schema.map (fun c => c.name)) (td.schema.map defaultFor),
            true, none⟩] },
       refresh_table_viewer
         { tables := replaceTable db.tables t
              { td with rows := td.rows ++ [resolveRow td (td.schema.map defaultFor)] },
           history := db.history ++
            [⟨insert_display_sql t (td.schema.map (fun c => c.name))
                (td.schema.map defaultFor), true, none⟩] } t viewer,
       insert_display_sql t (td.schema.map (fun c => c.name)) (td.schema.map defaultFor)) := by
    simp only [add_table_row, insert_row, get_table_schema, h, hIns]
  have hLook : lookupTable (replaceTable db.tables t
      { td with rows := td.rows ++ [resolveRow td (td.schema.map defaultFor)] }) t =
      some { td with rows := td.rows ++ [resolveRow td (td.schema.map defaultFor)] } :=
    lookupTable_replace db.tables t td _ h
  have hRef := refresh_viewer_rows
      { tables := replaceTable db.tables t
          { td with rows := td.rows ++ [resolveRow td (td.schema.map defaultFor)] },
        history := db.history ++
          [⟨insert_display_sql t (td.schema.map (fun c => c.name)) (td.schema.map defaultFor),
            true, none⟩] } t viewer
      { td with rows := td.rows ++ [resolveRow td (td.schema.map defaultFor)] } hLook
  refine ⟨?_, ?_, ?_, ?_, ?_, ?_⟩
  · intro colx
    refine ⟨fun hp => ?_, fun hnp => ⟨fun d hd => ?_,
      fun hd => ⟨fun hn => ?_, fun hn hi => ?_, fun hn hi hr => ?_, fun hn hi hr => ?_⟩⟩⟩
    · simp only [defaultFor, if_pos hp]
    · simp only [defaultFor, if_neg hnp, hd]
    · simp only [defaultFor, if_neg hnp, hd, if_pos hn]
    · simp only [defaultFor, if_neg hnp, hd, if_neg hn, if_pos hi]
    · simp only [defaultFor, if_neg hnp, hd, if_neg hn, hi, Bool.false_eq_true, if_false,
        if_pos hr]
    · simp only [defaultFor, if_neg hnp, hd, if_neg hn, hi, hr, Bool.false_eq_true,
        if_false]
  · rw [hAdd]
  · rw [hAdd]
    exact hLook
  · rw [hAdd]
    exact hRef.1
  · rw [hAdd]
    exact hRef.2
  · intro c0 restS hs ha
    have hd0 : defaultFor c0 = SqlValue.null := by
      simp only [defaultFor, if_pos ((autoPk_iff c0).mp ha)]
    unfold resolveRow
    rw [zip_map_self, hs]
    simp only [List.map_cons]
    rw [show (if (defaultFor c0 = SqlValue.null ∧ autoPk c0 = true) then
        SqlValue.int (nextRowId td) else defaultFor c0) = SqlValue.int (nextRowId td) from
      if_pos ⟨hd0, ha⟩]
    rfl

/-- Witness for C9 (Scenario C): adding a default row to `courses`
synthesizes an INSERT with a NULL id and an empty required name, the
viewer shows the store's rows after refresh, and the appended row's id
is the store-assigned 7. -/
theorem c9_add_table_row_witness :
    lookupTable initialDb.tables "courses" = some ⟨coursesSchema, coursesData⟩ ∧
    ((add_table_row initialDb "courses" TableModel.empty).2.1).data =
      coursesData ++ [resolveRow ⟨coursesSchema, coursesData⟩ (coursesSchema.map defaultFor)] ∧
    (add_table_row initialDb "courses" TableModel.empty).2.2 =
      "INSERT INTO courses (course_id, course_name, instructor, credits) VALUES (NULL, \x27\x27, NULL, NULL)" ∧
    cell (resolveRow ⟨coursesSchema, coursesData⟩ (coursesSchema.map defaultFor)) 0 =
      SqlValue.int 7 := by
  have h : lookupTable initialDb.tables "courses" = some ⟨coursesSchema, coursesData⟩ := rfl
  have H := c9_add_table_row initialDb "courses" TableModel.empty ⟨coursesSchema, coursesData⟩ h
  refine ⟨h, H.2.2.2.1, ?_, ?_⟩
  · rw [H.2.1]
    rfl
  · exact Eq.trans (H.2.2.2.2.2 ⟨0, "course_id", "INTEGER", 0, none, 1⟩
      [⟨1, "course_name", "TEXT", 1, none, 0⟩, ⟨2, "instructor", "TEXT", 0, none, 0⟩,
       ⟨3, "credits", "INTEGER", 0, none, 0⟩] rfl (by decide)) rfl

end EasySql
